import Mathlib

/-!
Verification of the DNS-to-DoH forwarder (src/lib.rs).

The model is a shallow embedding of the request pipeline:
`forward_to_doh`, `handle_udp_query`, `handle_tcp_query` and the
bootstrap-address parsing of `resolve_bootstrap`.  External effects are
made explicit: the HTTP client is an oracle `send : Nat → SendResult`
giving the outcome of each attempt, DNS-message parsing
(`hickory` `Message.from_vec`) is an oracle for the extracted domain and
for the list of answer TTLs, and the monotonic clock is a parameter
`now`.  Each run returns a trace recording the result, the final cache,
the cache probes, the dispatched bodies, the back-off sleeps and the
cache insertions.
-/

namespace SafeDNS

/-- A byte is modelled as a natural number below 256; no arithmetic in the
pipeline wraps, so `Nat` is used directly. -/
abbrev Bytes := List Nat

/-- Outcome of one `client.post(...).send().await` attempt: a transport
error from `send`, or an HTTP response with a status code and a body read
that may itself fail (the `r.bytes().await?` in the source). -/
inductive SendResult where
  | errS (msg : String)
  | ok (code : Nat) (body : Except String Bytes)

/-- `reqwest` `StatusCode.is_success`: code in 200..=299. -/
def is_success (code : Nat) : Bool :=
  decide (200 ≤ code) && decide (code ≤ 299)

/-- ASCII lower-casing of one character, as in Rust `eq_ignore_ascii_case`. -/
def asciiLower (c : Char) : Char :=
  if 'A' ≤ c && c ≤ 'Z' then Char.ofNat (c.toNat + 32) else c

/-- Rust `str::eq_ignore_ascii_case`. -/
def eqIgnoreAsciiCase (a b : String) : Bool :=
  a.data.map asciiLower == b.data.map asciiLower

/-- The `should_cache` computation of `forward_to_doh` (lib.rs:723-727). -/
def shouldCacheFor (excludeDomain : Option String) (domain : String) : Bool :=
  match excludeDomain with
  | some exclude => !(eqIgnoreAsciiCase domain exclude)
  | none => true

/-- The answer cache: association list from key (request bytes with the
ID stripped) to (response bytes, expiry instant).  The moka cache of the
source is keyed the same way; capacity-based eviction is not modelled as
no claim depends on it. -/
abbrev CacheMap := List (Bytes × (Bytes × Nat))

/-- `cache.get(key)`: first matching entry. -/
def cacheGet (c : CacheMap) (k : Bytes) : Option (Bytes × Nat) :=
  match c with
  | [] => none
  | (k2, v) :: rest => if k2 = k then some v else cacheGet rest k

/-- `cache.invalidate(key)`. -/
def cacheRemove (c : CacheMap) (k : Bytes) : CacheMap :=
  c.filter (fun e => e.1 ≠ k)

/-- Well-formedness of the answer cache: every stored response is longer
than 2 bytes.  Holds for every cache built by the pipeline, because
insertion is guarded by `bytes.len() > 2` (lib.rs:783). -/
def cacheWf (c : CacheMap) : Prop := ∀ e ∈ c, 2 < e.2.1.length

/-- `cache.insert(key, v)`. -/
def cacheInsert (c : CacheMap) (k : Bytes) (v : Bytes × Nat) : CacheMap :=
  (k, v) :: cacheRemove c k

/-- The two sequential clamps of lib.rs:788-789:
`if ttl < 10 ... ; if ttl > 3600 ...`. -/
def clampTtl (t : Nat) : Nat :=
  let t2 := if t < 10 then 10 else t
  if t2 > 3600 then 3600 else t2

/-- TTL derivation of lib.rs:785-790.  `parseAnswerTtls` models
`Message.from_vec` composed with `answers().iter().map(ttl)`:
`none` is a parse failure, `some ttls` a successful parse.  On parse
failure the configured default is used with NO clamping (the clamps sit
inside the parse-success branch in the source); on success the minimum
answer TTL (or the default truncated to u32 when there is no answer) is
clamped to [10, 3600]. -/
def computeTtl (parseAnswerTtls : Bytes → Option (List Nat))
    (cacheTtlDefault : Nat) (bytes : Bytes) : Nat :=
  match parseAnswerTtls bytes with
  | none => cacheTtlDefault
  | some ttls => clampTtl ((ttls.min?).getD (cacheTtlDefault % 4294967296))

/-- `resp[0] = i0; resp[1] = i1` on a vector of length at least 2. -/
def setId (b : Bytes) (i0 i1 : Nat) : Bytes :=
  (b.set 0 i0).set 1 i1

/-- Error outcomes of `forward_to_doh`.  `panicIndexOutOfBounds` models
the Rust index panic in the cache-hit path when a cached entry is shorter
than 2 bytes (the writes at lib.rs:738-739 are unguarded). -/
inductive DohError where
  | malformedRequest
  | upstreamFailed (msg : String)
  | bodyReadFailed (msg : String)
  | panicIndexOutOfBounds
deriving DecidableEq

/-- The status message recorded in `last_err` for a non-2xx response
(lib.rs:774); the version suffix of the format string is not modelled. -/
def statusMsg (code : Nat) : String :=
  "Resolver status " ++ toString code

/-- The message stored into `last_err` by a failing attempt. -/
def sendFailMsg : SendResult → String
  | .errS msg => msg
  | .ok code _ => statusMsg code

/-- True when an attempt outcome makes the loop continue to the next
attempt: transport error from `send`, or non-2xx status. -/
def isFailAttempt : SendResult → Bool
  | .errS _ => true
  | .ok code _ => !(is_success code)

/-- Result of the retry loop (lib.rs:757-808). -/
structure LoopOut where
  result : Except DohError Bytes
  cache : CacheMap
  dispatches : List Bytes
  sleeps : List Nat
  inserts : List (Bytes × Bytes × Nat)

/-- The retry loop `for attempt in 0..3` of lib.rs:758-808, recursing on
remaining fuel.  Arguments mirror the state of the loop: the body sent on
every attempt, `should_cache`, the cache key, the TTL-parsing oracle, the
configured default TTL, the current instant, the two original ID bytes,
then fuel, the attempt index, `last_err` and the cache. -/
def attemptLoop (send : Nat → SendResult) (body : Bytes) (sc : Bool)
    (key : Bytes) (parseAnswerTtls : Bytes → Option (List Nat))
    (cacheTtlDefault : Nat) (now : Nat) (id0 id1 : Nat) :
    Nat → Nat → Option String → CacheMap → LoopOut
  | 0, _attempt, lastErr, cache =>
    { result := .error (.upstreamFailed (lastErr.getD "Unknown Error"))
      cache := cache, dispatches := [], sleeps := [], inserts := [] }
  | fuel + 1, attempt, _lastErr, cache =>
    let preSleeps : List Nat := if attempt > 0 then [100 * attempt] else []
    match send attempt with
    | .errS msg =>
      let rest := attemptLoop send body sc key parseAnswerTtls cacheTtlDefault
        now id0 id1 fuel (attempt + 1) (some msg) cache
      { rest with dispatches := body :: rest.dispatches
                  sleeps := preSleeps ++ rest.sleeps }
    | .ok code bodyRes =>
      if is_success code then
        match bodyRes with
        | .error msg =>
          { result := .error (.bodyReadFailed msg), cache := cache
            dispatches := [body], sleeps := preSleeps, inserts := [] }
        | .ok bytes =>
          let doInsert := sc && decide (2 < bytes.length)
          let ttl := computeTtl parseAnswerTtls cacheTtlDefault bytes
          let cache2 := if doInsert then cacheInsert cache key (bytes, now + ttl)
            else cache
          let ins := if doInsert then [(key, bytes, ttl)] else []
          let finalResp := if 2 ≤ bytes.length then setId bytes id0 id1 else bytes
          { result := .ok finalResp, cache := cache2
            dispatches := [body], sleeps := preSleeps, inserts := ins }
      else
        let rest := attemptLoop send body sc key parseAnswerTtls cacheTtlDefault
          now id0 id1 fuel (attempt + 1) (some (statusMsg code)) cache
        { rest with dispatches := body :: rest.dispatches
                    sleeps := preSleeps ++ rest.sleeps }

/-- The configuration fields consulted by the pipeline. -/
structure FwdConfig where
  cacheTtlDefault : Nat
  excludeDomain : Option String

/-- A full trace of one `forward_to_doh` run. -/
structure FwdTrace where
  result : Except DohError Bytes
  cache : CacheMap
  probes : List Bytes
  dispatches : List Bytes
  sleeps : List Nat
  inserts : List (Bytes × Bytes × Nat)

/-- Shallow embedding of `forward_to_doh` (lib.rs:708-824).  `domainOf`
models `extract_domain`, `parseAnswerTtls` the TTL extraction oracle,
`send` the HTTP client, `now` the instant; `data` is the client request
and `cache` the answer cache at entry. -/
def forward_to_doh (domainOf : Bytes → String)
    (parseAnswerTtls : Bytes → Option (List Nat))
    (send : Nat → SendResult) (cfg : FwdConfig) (now : Nat)
    (data : Bytes) (cache : CacheMap) : FwdTrace :=
  if data.length < 12 then
    { result := .error .malformedRequest, cache := cache, probes := []
      dispatches := [], sleeps := [], inserts := [] }
  else
    let id0 := data.getD 0 0
    let id1 := data.getD 1 0
    let domain := domainOf data
    let sc := shouldCacheFor cfg.excludeDomain domain
    let key := data.drop 2
    let dispatch : CacheMap → List Bytes → FwdTrace := fun c probes =>
      let requestData := setId data 0 0
      let out := attemptLoop send requestData sc key parseAnswerTtls
        cfg.cacheTtlDefault now id0 id1 3 0 none c
      { result := out.result, cache := out.cache, probes := probes
        dispatches := out.dispatches, sleeps := out.sleeps
        inserts := out.inserts }
    if sc then
      match cacheGet cache key with
      | some (cachedResp, expiry) =>
        if now < expiry then
          if cachedResp.length < 2 then
            { result := .error .panicIndexOutOfBounds, cache := cache
              probes := [key], dispatches := [], sleeps := [], inserts := [] }
          else
            { result := .ok (setId cachedResp id0 id1), cache := cache
              probes := [key], dispatches := [], sleeps := [], inserts := [] }
        else
          dispatch (cacheRemove cache key) [key]
      | none => dispatch cache [key]
    else
      dispatch cache []

/-- Observable outcome of `handle_udp_query` (lib.rs:627-649): the datagram
sent back via `send_to` (if any), the number of `errors` increments, and
the cache afterwards. -/
structure UdpOut where
  sent : Option Bytes
  errorsInc : Nat
  cache : CacheMap

/-- Shallow embedding of `handle_udp_query`. -/
def handle_udp_query (domainOf : Bytes → String)
    (parseAnswerTtls : Bytes → Option (List Nat))
    (send : Nat → SendResult) (cfg : FwdConfig) (now : Nat)
    (data : Bytes) (cache : CacheMap) : UdpOut :=
  let f := forward_to_doh domainOf parseAnswerTtls send cfg now data cache
  match f.result with
  | .ok bytes => { sent := some bytes, errorsInc := 0, cache := f.cache }
  | .error _ => { sent := none, errorsInc := 1, cache := f.cache }

/-- Observable outcome of `handle_tcp_query` (lib.rs:651-680): the bytes
written to the stream, the number of `errors` increments, the cache
afterwards, and whether `read_exact` failed for lack of input. -/
structure TcpOut where
  written : Bytes
  errorsInc : Nat
  cache : CacheMap
  readFailed : Bool

/-- Big-endian 16-bit value from two bytes (`u16::from_be_bytes`). -/
def u16be (hi lo : Nat) : Nat := 256 * hi + lo

/-- `(n as u16).to_be_bytes()`. -/
def be16 (n : Nat) : Bytes := [(n % 65536) / 256, n % 256]

/-- Shallow embedding of `handle_tcp_query`; `streamIn` is the byte
stream readable from the client. -/
def handle_tcp_query (domainOf : Bytes → String)
    (parseAnswerTtls : Bytes → Option (List Nat))
    (send : Nat → SendResult) (cfg : FwdConfig) (now : Nat)
    (streamIn : Bytes) (cache : CacheMap) : TcpOut :=
  if streamIn.length < 2 then
    { written := [], errorsInc := 0, cache := cache, readFailed := true }
  else
    let len := u16be (streamIn.getD 0 0) (streamIn.getD 1 0)
    if streamIn.length < 2 + len then
      { written := [], errorsInc := 0, cache := cache, readFailed := true }
    else
      let data := (streamIn.drop 2).take len
      let f := forward_to_doh domainOf parseAnswerTtls send cfg now data cache
      match f.result with
      | .ok bytes =>
        { written := be16 bytes.length ++ bytes, errorsInc := 0
          cache := f.cache, readFailed := false }
      | .error _ =>
        { written := [], errorsInc := 1, cache := f.cache, readFailed := false }

/-- A socket address: textual IP and port. -/
structure SockAddr where
  ip : String
  port : Nat
deriving DecidableEq

/-- ASCII whitespace, the fragment of Rust `char::is_whitespace` the
bootstrap strings can contain. -/
def isWs (c : Char) : Bool :=
  c = ' ' || c = '\t' || c = '\n' || c = '\r'

/-- Rust `str::trim` on the character list. -/
def rustTrim (s : String) : String :=
  String.mk (((s.data.dropWhile isWs).reverse.dropWhile isWs).reverse)

/-- Splitting a character list at a separator, with Rust `split`
semantics: the result is never empty and keeps empty fragments. -/
def splitChars (sep : Char) : List Char → List (List Char)
  | [] => [[]]
  | c :: rest =>
    match splitChars sep rest with
    | [] => [[]]
    | h :: t => if c = sep then [] :: h :: t else (c :: h) :: t

/-- Rust `str::split(sep)` collected into a list. -/
def rustSplit (sep : Char) (s : String) : List String :=
  (splitChars sep s.data).map String.mk

/-- One entry of the `bootstrap_dns` list (lib.rs:555-562): trim, try
`parse::<IpAddr>` (bare IP, port 53), else `parse::<SocketAddr>`; the
final `expect` panic is modelled as `none`.  `parseIp` and `parseSock`
are oracles for the std library parsers. -/
def parseBootstrapEntry (parseIp : String → Option String)
    (parseSock : String → Option SockAddr) (s : String) : Option SockAddr :=
  let t := rustTrim s
  match parseIp t with
  | some ip => some { ip := ip, port := 53 }
  | none => parseSock t

/-- `bootstrap_dns.split(',').map(parse-entry).collect()`, where a panic
in the closure short-circuits the whole collection to `none`. -/
def bootstrapServers (parseIp : String → Option String)
    (parseSock : String → Option SockAddr) (bootstrap_dns : String) :
    Option (List SockAddr) :=
  go (rustSplit ',' bootstrap_dns)
where
  go : List String → Option (List SockAddr)
    | [] => some []
    | s :: rest =>
      match parseBootstrapEntry parseIp parseSock s with
      | none => none
      | some a =>
        match go rest with
        | none => none
        | some l => some (a :: l)

/-- The error outcomes `resolve_bootstrap` can return (lib.rs:581-589). -/
inductive BootstrapError where
  | lookupFailed (msg : String)
  | noIps
deriving DecidableEq

/-- Shallow embedding of `resolve_bootstrap` (lib.rs:552-590): parse the
server list (outer `none` = panic from `expect`), then run the lookup
oracle and map every returned IP to port 443, failing with `noIps` when
the list is empty. -/
def resolve_bootstrap (parseIp : String → Option String)
    (parseSock : String → Option SockAddr)
    (lookupIp : List SockAddr → Except String (List String))
    (bootstrap_dns : String) :
    Option (Except BootstrapError (List SockAddr)) :=
  match bootstrapServers parseIp parseSock bootstrap_dns with
  | none => none
  | some servers =>
    some (match lookupIp servers with
      | .error msg => .error (.lookupFailed msg)
      | .ok ips =>
        let addrs := ips.map (fun ip => { ip := ip, port := 443 : SockAddr })
        if addrs.isEmpty then .error .noIps else .ok addrs)

instance {ε α : Type _} [DecidableEq ε] [DecidableEq α] :
    DecidableEq (Except ε α) := fun a b =>
  match a, b with
  | .error x, .error y =>
    if h : x = y then isTrue (congrArg Except.error h) else isFalse (by simp [h])
  | .error _, .ok _ => isFalse (by simp)
  | .ok _, .error _ => isFalse (by simp)
  | .ok x, .ok y =>
    if h : x = y then isTrue (congrArg Except.ok h) else isFalse (by simp [h])

theorem setId_length (b : Bytes) (x y : Nat) :
    (setId b x y).length = b.length := by
  simp [setId]

theorem setId_take_two (b : Bytes) (x y : Nat) (h : 2 ≤ b.length) :
    (setId b x y).take 2 = [x, y] := by
  match b with
  | [] => simp at h
  | [_] => simp at h
  | a :: a2 :: t => simp [setId]

theorem setId_cons_cons (a a2 : Nat) (t : Bytes) (x y : Nat) :
    setId (a :: a2 :: t) x y = x :: y :: t := by
  simp [setId]

theorem take_two_getD (l : Bytes) (h : 2 ≤ l.length) :
    l.take 2 = [l.getD 0 0, l.getD 1 0] := by
  match l with
  | [] => simp at h
  | [_] => simp at h
  | a :: a2 :: t => simp

theorem clampTtl_bounds (t : Nat) : 10 ≤ clampTtl t ∧ clampTtl t ≤ 3600 := by
  simp only [clampTtl]
  split <;> split <;> omega

theorem cacheGet_mem {c : CacheMap} {k : Bytes} {v : Bytes × Nat}
    (h : cacheGet c k = some v) : (k, v) ∈ c := by
  induction c with
  | nil => simp [cacheGet] at h
  | cons e rest ih =>
    obtain ⟨k2, v2⟩ := e
    by_cases hk : k2 = k
    · subst hk
      simp [cacheGet] at h
      subst h
      exact List.mem_cons_self _ _
    · simp [cacheGet, hk] at h
      exact List.mem_cons_of_mem _ (ih h)

theorem cacheRemove_wf {c : CacheMap} {k : Bytes} (h : cacheWf c) :
    cacheWf (cacheRemove c k) := by
  intro e he
  exact h e (List.mem_filter.mp he).1

theorem cacheInsert_wf {c : CacheMap} {k : Bytes} {bytes : Bytes} {exp : Nat}
    (h : cacheWf c) (hb : 2 < bytes.length) :
    cacheWf (cacheInsert c k (bytes, exp)) := by
  intro e he
  rcases List.mem_cons.mp he with rfl | he2
  · exact hb
  · exact cacheRemove_wf h e he2

section AttemptLoopLemmas

variable (send : Nat → SendResult) (body : Bytes) (sc : Bool) (key : Bytes)
  (parse : Bytes → Option (List Nat)) (dflt now id0 id1 : Nat)

theorem attemptLoop_fail_step (fuel attempt : Nat) (lastErr : Option String)
    (cache : CacheMap) (h : isFailAttempt (send attempt) = true) :
    attemptLoop send body sc key parse dflt now id0 id1 (fuel + 1) attempt lastErr cache =
      { result := (attemptLoop send body sc key parse dflt now id0 id1 fuel (attempt + 1)
          (some (sendFailMsg (send attempt))) cache).result
        cache := (attemptLoop send body sc key parse dflt now id0 id1 fuel (attempt + 1)
          (some (sendFailMsg (send attempt))) cache).cache
        dispatches := body :: (attemptLoop send body sc key parse dflt now id0 id1 fuel
          (attempt + 1) (some (sendFailMsg (send attempt))) cache).dispatches
        sleeps := (if attempt > 0 then [100 * attempt] else []) ++
          (attemptLoop send body sc key parse dflt now id0 id1 fuel (attempt + 1)
            (some (sendFailMsg (send attempt))) cache).sleeps
        inserts := (attemptLoop send body sc key parse dflt now id0 id1 fuel (attempt + 1)
          (some (sendFailMsg (send attempt))) cache).inserts } := by
  cases hsend : send attempt with
  | errS msg => simp [attemptLoop, hsend, sendFailMsg]
  | ok code bodyRes =>
    have hcode : is_success code = false := by
      have h2 := h
      rw [hsend] at h2
      simpa [isFailAttempt] using h2
    simp [attemptLoop, hsend, hcode, sendFailMsg]

theorem attemptLoop_success_step (fuel attempt : Nat) (lastErr : Option String)
    (cache : CacheMap) (code : Nat) (bytes : Bytes)
    (hsend : send attempt = .ok code (.ok bytes))
    (hcode : is_success code = true) :
    attemptLoop send body sc key parse dflt now id0 id1 (fuel + 1) attempt lastErr cache =
      { result := .ok (if 2 ≤ bytes.length then setId bytes id0 id1 else bytes)
        cache := if sc && decide (2 < bytes.length) then
            cacheInsert cache key (bytes, now + computeTtl parse dflt bytes) else cache
        dispatches := [body]
        sleeps := if attempt > 0 then [100 * attempt] else []
        inserts := if sc && decide (2 < bytes.length) then
            [(key, bytes, computeTtl parse dflt bytes)] else [] } := by
  simp [attemptLoop, hsend, hcode]

theorem attemptLoop_bodyerr_step (fuel attempt : Nat) (lastErr : Option String)
    (cache : CacheMap) (code : Nat) (msg : String)
    (hsend : send attempt = .ok code (.error msg))
    (hcode : is_success code = true) :
    attemptLoop send body sc key parse dflt now id0 id1 (fuel + 1) attempt lastErr cache =
      { result := .error (.bodyReadFailed msg), cache := cache
        dispatches := [body], sleeps := if attempt > 0 then [100 * attempt] else []
        inserts := [] } := by
  simp [attemptLoop, hsend, hcode]

theorem attemptLoop_zero (attempt : Nat) (lastErr : Option String) (cache : CacheMap) :
    attemptLoop send body sc key parse dflt now id0 id1 0 attempt lastErr cache =
      { result := .error (.upstreamFailed (lastErr.getD "Unknown Error"))
        cache := cache, dispatches := [], sleeps := [], inserts := [] } := by
  simp [attemptLoop]

theorem attemptLoop_ok_take_two :
    ∀ (fuel attempt : Nat) (lastErr : Option String) (cache : CacheMap) (S : Bytes),
      (attemptLoop send body sc key parse dflt now id0 id1 fuel attempt
        lastErr cache).result = .ok S →
      2 ≤ S.length → S.take 2 = [id0, id1] := by
  intro fuel
  induction fuel with
  | zero =>
    intro attempt lastErr cache S hres hS
    simp [attemptLoop] at hres
  | succ fuel ih =>
    intro attempt lastErr cache S hres hS
    cases hsend : send attempt with
    | errS msg =>
      rw [attemptLoop_fail_step send body sc key parse dflt now id0 id1 fuel attempt
        lastErr cache (by simp [isFailAttempt, hsend])] at hres
      exact ih _ _ _ _ hres hS
    | ok code bodyRes =>
      by_cases hcode : is_success code = true
      · cases bodyRes with
        | error msg =>
          rw [attemptLoop_bodyerr_step send body sc key parse dflt now id0 id1 fuel attempt
            lastErr cache code msg hsend hcode] at hres
          simp at hres
        | ok bytes =>
          rw [attemptLoop_success_step send body sc key parse dflt now id0 id1 fuel attempt
            lastErr cache code bytes hsend hcode] at hres
          simp at hres
          by_cases hb : 2 ≤ bytes.length
          · rw [if_pos hb] at hres
            subst hres
            exact setId_take_two bytes id0 id1 hb
          · rw [if_neg hb] at hres
            subst hres
            omega
      · rw [attemptLoop_fail_step send body sc key parse dflt now id0 id1 fuel attempt
          lastErr cache (by simp [isFailAttempt, hsend]; simpa using hcode)] at hres
        exact ih _ _ _ _ hres hS

theorem attemptLoop_dispatch_mem :
    ∀ (fuel attempt : Nat) (lastErr : Option String) (cache : CacheMap) (b : Bytes),
      b ∈ (attemptLoop send body sc key parse dflt now id0 id1 fuel attempt
        lastErr cache).dispatches →
      b = body := by
  intro fuel
  induction fuel with
  | zero =>
    intro attempt lastErr cache b hb
    simp [attemptLoop] at hb
  | succ fuel ih =>
    intro attempt lastErr cache b hb
    cases hsend : send attempt with
    | errS msg =>
      rw [attemptLoop_fail_step send body sc key parse dflt now id0 id1 fuel attempt
        lastErr cache (by simp [isFailAttempt, hsend])] at hb
      rcases List.mem_cons.mp hb with rfl | hb2
      · rfl
      · exact ih _ _ _ _ hb2
    | ok code bodyRes =>
      by_cases hcode : is_success code = true
      · cases bodyRes with
        | error msg =>
          rw [attemptLoop_bodyerr_step send body sc key parse dflt now id0 id1 fuel attempt
            lastErr cache code msg hsend hcode] at hb
          simpa using hb
        | ok bytes =>
          rw [attemptLoop_success_step send body sc key parse dflt now id0 id1 fuel attempt
            lastErr cache code bytes hsend hcode] at hb
          simpa using hb
      · rw [attemptLoop_fail_step send body sc key parse dflt now id0 id1 fuel attempt
          lastErr cache (by simp [isFailAttempt, hsend]; simpa using hcode)] at hb
        rcases List.mem_cons.mp hb with rfl | hb2
        · rfl
        · exact ih _ _ _ _ hb2

theorem attemptLoop_insert_mem :
    ∀ (fuel attempt : Nat) (lastErr : Option String) (cache : CacheMap)
      (e : Bytes × Bytes × Nat),
      e ∈ (attemptLoop send body sc key parse dflt now id0 id1 fuel attempt
        lastErr cache).inserts →
      e.1 = key ∧ 2 < e.2.1.length ∧ e.2.2 = computeTtl parse dflt e.2.1 ∧ sc = true := by
  intro fuel
  induction fuel with
  | zero =>
    intro attempt lastErr cache e he
    simp [attemptLoop] at he
  | succ fuel ih =>
    intro attempt lastErr cache e he
    cases hsend : send attempt with
    | errS msg =>
      rw [attemptLoop_fail_step send body sc key parse dflt now id0 id1 fuel attempt
        lastErr cache (by simp [isFailAttempt, hsend])] at he
      exact ih _ _ _ _ he
    | ok code bodyRes =>
      by_cases hcode : is_success code = true
      · cases bodyRes with
        | error msg =>
          rw [attemptLoop_bodyerr_step send body sc key parse dflt now id0 id1 fuel attempt
            lastErr cache code msg hsend hcode] at he
          simp at he
        | ok bytes =>
          rw [attemptLoop_success_step send body sc key parse dflt now id0 id1 fuel attempt
            lastErr cache code bytes hsend hcode] at he
          simp at he
          obtain ⟨⟨hsc, hblen⟩, rfl⟩ := he
          exact ⟨rfl, hblen, rfl, hsc⟩
      · rw [attemptLoop_fail_step send body sc key parse dflt now id0 id1 fuel attempt
          lastErr cache (by simp [isFailAttempt, hsend]; simpa using hcode)] at he
        exact ih _ _ _ _ he

theorem attemptLoop_cache_wf :
    ∀ (fuel attempt : Nat) (lastErr : Option String) (cache : CacheMap),
      cacheWf cache →
      cacheWf (attemptLoop send body sc key parse dflt now id0 id1 fuel attempt
        lastErr cache).cache := by
  intro fuel
  induction fuel with
  | zero =>
    intro attempt lastErr cache hwf
    rw [attemptLoop_zero]
    exact hwf
  | succ fuel ih =>
    intro attempt lastErr cache hwf
    cases hsend : send attempt with
    | errS msg =>
      rw [attemptLoop_fail_step send body sc key parse dflt now id0 id1 fuel attempt
        lastErr cache (by simp [isFailAttempt, hsend])]
      exact ih _ _ _ hwf
    | ok code bodyRes =>
      by_cases hcode : is_success code = true
      · cases bodyRes with
        | error msg =>
          rw [attemptLoop_bodyerr_step send body sc key parse dflt now id0 id1 fuel attempt
            lastErr cache code msg hsend hcode]
          exact hwf
        | ok bytes =>
          rw [attemptLoop_success_step send body sc key parse dflt now id0 id1 fuel attempt
            lastErr cache code bytes hsend hcode]
          by_cases hins : (sc && decide (2 < bytes.length)) = true
          · simp only [if_pos hins]
            simp only [Bool.and_eq_true, decide_eq_true_eq] at hins
            exact cacheInsert_wf hwf hins.2
          · simp only [if_neg hins]
            exact hwf
      · rw [attemptLoop_fail_step send body sc key parse dflt now id0 id1 fuel attempt
          lastErr cache (by simp [isFailAttempt, hsend]; simpa using hcode)]
        exact ih _ _ _ hwf

theorem attemptLoop_no_panic :
    ∀ (fuel attempt : Nat) (lastErr : Option String) (cache : CacheMap),
      (attemptLoop send body sc key parse dflt now id0 id1 fuel attempt
        lastErr cache).result ≠ .error .panicIndexOutOfBounds := by
  intro fuel
  induction fuel with
  | zero =>
    intro attempt lastErr cache
    rw [attemptLoop_zero]
    simp
  | succ fuel ih =>
    intro attempt lastErr cache
    cases hsend : send attempt with
    | errS msg =>
      rw [attemptLoop_fail_step send body sc key parse dflt now id0 id1 fuel attempt
        lastErr cache (by simp [isFailAttempt, hsend])]
      exact ih _ _ _
    | ok code bodyRes =>
      by_cases hcode : is_success code = true
      · cases bodyRes with
        | error msg =>
          rw [attemptLoop_bodyerr_step send body sc key parse dflt now id0 id1 fuel attempt
            lastErr cache code msg hsend hcode]
          simp
        | ok bytes =>
          rw [attemptLoop_success_step send body sc key parse dflt now id0 id1 fuel attempt
            lastErr cache code bytes hsend hcode]
          simp
      · rw [attemptLoop_fail_step send body sc key parse dflt now id0 id1 fuel attempt
          lastErr cache (by simp [isFailAttempt, hsend]; simpa using hcode)]
        exact ih _ _ _

theorem attemptLoop_sc_false (hsc : sc = false) :
    ∀ (fuel attempt : Nat) (lastErr : Option String) (cache : CacheMap),
      (attemptLoop send body sc key parse dflt now id0 id1 fuel attempt
        lastErr cache).cache = cache ∧
      (attemptLoop send body sc key parse dflt now id0 id1 fuel attempt
        lastErr cache).inserts = [] := by
  intro fuel
  induction fuel with
  | zero =>
    intro attempt lastErr cache
    rw [attemptLoop_zero]
    exact ⟨rfl, rfl⟩
  | succ fuel ih =>
    intro attempt lastErr cache
    cases hsend : send attempt with
    | errS msg =>
      rw [attemptLoop_fail_step send body sc key parse dflt now id0 id1 fuel attempt
        lastErr cache (by simp [isFailAttempt, hsend])]
      exact ih _ _ _
    | ok code bodyRes =>
      by_cases hcode : is_success code = true
      · cases bodyRes with
        | error msg =>
          rw [attemptLoop_bodyerr_step send body sc key parse dflt now id0 id1 fuel attempt
            lastErr cache code msg hsend hcode]
          exact ⟨rfl, rfl⟩
        | ok bytes =>
          rw [attemptLoop_success_step send body sc key parse dflt now id0 id1 fuel attempt
            lastErr cache code bytes hsend hcode]
          simp [hsc]
      · rw [attemptLoop_fail_step send body sc key parse dflt now id0 id1 fuel attempt
          lastErr cache (by simp [isFailAttempt, hsend]; simpa using hcode)]
        exact ih _ _ _

theorem attemptLoop_dispatch_le :
    ∀ (fuel attempt : Nat) (lastErr : Option String) (cache : CacheMap),
      (attemptLoop send body sc key parse dflt now id0 id1 fuel attempt
        lastErr cache).dispatches.length ≤ fuel := by
  intro fuel
  induction fuel with
  | zero =>
    intro attempt lastErr cache
    rw [attemptLoop_zero]
    simp
  | succ fuel ih =>
    intro attempt lastErr cache
    cases hsend : send attempt with
    | errS msg =>
      rw [attemptLoop_fail_step send body sc key parse dflt now id0 id1 fuel attempt
        lastErr cache (by simp [isFailAttempt, hsend])]
      have := ih (attempt + 1) (some (sendFailMsg (send attempt))) cache
      simp only [List.length_cons]
      omega
    | ok code bodyRes =>
      by_cases hcode : is_success code = true
      · cases bodyRes with
        | error msg =>
          rw [attemptLoop_bodyerr_step send body sc key parse dflt now id0 id1 fuel attempt
            lastErr cache code msg hsend hcode]
          simp
        | ok bytes =>
          rw [attemptLoop_success_step send body sc key parse dflt now id0 id1 fuel attempt
            lastErr cache code bytes hsend hcode]
          simp
      · rw [attemptLoop_fail_step send body sc key parse dflt now id0 id1 fuel attempt
          lastErr cache (by simp [isFailAttempt, hsend]; simpa using hcode)]
        have := ih (attempt + 1) (some (sendFailMsg (send attempt))) cache
        simp only [List.length_cons]
        omega

theorem attemptLoop_dispatch_pos :
    ∀ (fuel attempt : Nat) (lastErr : Option String) (cache : CacheMap),
      1 ≤ (attemptLoop send body sc key parse dflt now id0 id1 (fuel + 1) attempt
        lastErr cache).dispatches.length := by
  intro fuel attempt lastErr cache
  cases hsend : send attempt with
  | errS msg =>
    rw [attemptLoop_fail_step send body sc key parse dflt now id0 id1 fuel attempt
      lastErr cache (by simp [isFailAttempt, hsend])]
    simp
  | ok code bodyRes =>
    by_cases hcode : is_success code = true
    · cases bodyRes with
      | error msg =>
        rw [attemptLoop_bodyerr_step send body sc key parse dflt now id0 id1 fuel attempt
          lastErr cache code msg hsend hcode]
        simp
      | ok bytes =>
        rw [attemptLoop_success_step send body sc key parse dflt now id0 id1 fuel attempt
          lastErr cache code bytes hsend hcode]
        simp
    · rw [attemptLoop_fail_step send body sc key parse dflt now id0 id1 fuel attempt
        lastErr cache (by simp [isFailAttempt, hsend]; simpa using hcode)]
      simp

theorem attemptLoop_sleeps_shape :
    ∀ (fuel attempt : Nat) (lastErr : Option String) (cache : CacheMap),
      (attemptLoop send body sc key parse dflt now id0 id1 fuel attempt
        lastErr cache).sleeps =
      ((List.range' attempt (attemptLoop send body sc key parse dflt now id0 id1 fuel
        attempt lastErr cache).dispatches.length).filter
          (fun a => decide (0 < a))).map (fun a => 100 * a) := by
  intro fuel
  induction fuel with
  | zero =>
    intro attempt lastErr cache
    rw [attemptLoop_zero]
    simp
  | succ fuel ih =>
    intro attempt lastErr cache
    cases hsend : send attempt with
    | errS msg =>
      rw [attemptLoop_fail_step send body sc key parse dflt now id0 id1 fuel attempt
        lastErr cache (by simp [isFailAttempt, hsend])]
      simp only [List.length_cons, List.range'_succ, List.filter_cons, List.map_append]
      by_cases ha : 0 < attempt
      · simp only [if_pos ha, decide_eq_true_eq]
        rw [ih]
        simp [ha]
      · have ha0 : attempt = 0 := by omega
        subst ha0
        simp only [decide_eq_true_eq]
        rw [ih]
        simp
    | ok code bodyRes =>
      by_cases hcode : is_success code = true
      · cases bodyRes with
        | error msg =>
          rw [attemptLoop_bodyerr_step send body sc key parse dflt now id0 id1 fuel attempt
            lastErr cache code msg hsend hcode]
          by_cases ha : 0 < attempt
          · simp [List.range'_succ, ha, List.filter_cons]
          · have ha0 : attempt = 0 := by omega
            subst ha0
            simp [List.range'_succ]
        | ok bytes =>
          rw [attemptLoop_success_step send body sc key parse dflt now id0 id1 fuel attempt
            lastErr cache code bytes hsend hcode]
          by_cases ha : 0 < attempt
          · simp [List.range'_succ, ha, List.filter_cons]
          · have ha0 : attempt = 0 := by omega
            subst ha0
            simp [List.range'_succ]
      · rw [attemptLoop_fail_step send body sc key parse dflt now id0 id1 fuel attempt
          lastErr cache (by simp [isFailAttempt, hsend]; simpa using hcode)]
        simp only [List.length_cons, List.range'_succ, List.filter_cons, List.map_append]
        by_cases ha : 0 < attempt
        · simp only [if_pos ha, decide_eq_true_eq]
          rw [ih]
          simp [ha]
        · have ha0 : attempt = 0 := by omega
          subst ha0
          simp only [decide_eq_true_eq]
          rw [ih]
          simp

end AttemptLoopLemmas

section ForwardLemmas

variable (domainOf : Bytes → String) (parse : Bytes → Option (List Nat))
  (send : Nat → SendResult) (cfg : FwdConfig) (now : Nat)

theorem forward_to_doh_malformed (data : Bytes) (cache : CacheMap)
    (h : data.length < 12) :
    forward_to_doh domainOf parse send cfg now data cache =
      { result := .error .malformedRequest, cache := cache, probes := []
        dispatches := [], sleeps := [], inserts := [] } := by
  unfold forward_to_doh
  rw [if_pos h]

theorem forward_to_doh_miss (data : Bytes) (cache : CacheMap)
    (hlen : 12 ≤ data.length)
    (hmiss : cacheGet cache (data.drop 2) = none) :
    forward_to_doh domainOf parse send cfg now data cache =
      { result := (attemptLoop send (setId data 0 0)
          (shouldCacheFor cfg.excludeDomain (domainOf data)) (data.drop 2)
          parse cfg.cacheTtlDefault now (data.getD 0 0) (data.getD 1 0) 3 0 none
          cache).result
        cache := (attemptLoop send (setId data 0 0)
          (shouldCacheFor cfg.excludeDomain (domainOf data)) (data.drop 2)
          parse cfg.cacheTtlDefault now (data.getD 0 0) (data.getD 1 0) 3 0 none
          cache).cache
        probes := if shouldCacheFor cfg.excludeDomain (domainOf data) then
          [data.drop 2] else []
        dispatches := (attemptLoop send (setId data 0 0)
          (shouldCacheFor cfg.excludeDomain (domainOf data)) (data.drop 2)
          parse cfg.cacheTtlDefault now (data.getD 0 0) (data.getD 1 0) 3 0 none
          cache).dispatches
        sleeps := (attemptLoop send (setId data 0 0)
          (shouldCacheFor cfg.excludeDomain (domainOf data)) (data.drop 2)
          parse cfg.cacheTtlDefault now (data.getD 0 0) (data.getD 1 0) 3 0 none
          cache).sleeps
        inserts := (attemptLoop send (setId data 0 0)
          (shouldCacheFor cfg.excludeDomain (domainOf data)) (data.drop 2)
          parse cfg.cacheTtlDefault now (data.getD 0 0) (data.getD 1 0) 3 0 none
          cache).inserts } := by
  unfold forward_to_doh
  rw [if_neg (by omega)]
  by_cases hsc : shouldCacheFor cfg.excludeDomain (domainOf data) = true
  · simp only [hsc, if_true, hmiss]
  · simp only [Bool.not_eq_true] at hsc
    simp only [hsc, Bool.false_eq_true, if_false]

theorem forward_to_doh_hit (data : Bytes) (cache : CacheMap) (cachedResp : Bytes)
    (expiry : Nat) (hlen : 12 ≤ data.length)
    (hsc : shouldCacheFor cfg.excludeDomain (domainOf data) = true)
    (hget : cacheGet cache (data.drop 2) = some (cachedResp, expiry))
    (hexp : now < expiry) (hlong : 2 ≤ cachedResp.length) :
    forward_to_doh domainOf parse send cfg now data cache =
      { result := .ok (setId cachedResp (data.getD 0 0) (data.getD 1 0))
        cache := cache, probes := [data.drop 2], dispatches := []
        sleeps := [], inserts := [] } := by
  unfold forward_to_doh
  rw [if_neg (by omega)]
  simp only [hsc, if_true, hget, if_pos hexp,
    if_neg (by omega : ¬ cachedResp.length < 2)]

theorem forward_dispatch_mem (data : Bytes) (cache : CacheMap) (b : Bytes)
    (hb : b ∈ (forward_to_doh domainOf parse send cfg now data cache).dispatches) :
    b = setId data 0 0 := by
  unfold forward_to_doh at hb
  by_cases h12 : data.length < 12
  · rw [if_pos h12] at hb
    simp at hb
  · rw [if_neg h12] at hb
    by_cases hsc : shouldCacheFor cfg.excludeDomain (domainOf data) = true
    · simp only [hsc, if_true] at hb
      cases hget : cacheGet cache (data.drop 2) with
      | none =>
        simp only [hget] at hb
        exact attemptLoop_dispatch_mem _ _ _ _ _ _ _ _ _ _ _ _ _ _ hb
      | some v =>
        obtain ⟨cachedResp, expiry⟩ := v
        simp only [hget] at hb
        by_cases hexp : now < expiry
        · rw [if_pos hexp] at hb
          by_cases hshort : cachedResp.length < 2
          · rw [if_pos hshort] at hb
            simp at hb
          · rw [if_neg hshort] at hb
            simp at hb
        · rw [if_neg hexp] at hb
          exact attemptLoop_dispatch_mem _ _ _ _ _ _ _ _ _ _ _ _ _ _ hb
    · simp only [Bool.not_eq_true] at hsc
      simp only [hsc, Bool.false_eq_true, if_false] at hb
      exact attemptLoop_dispatch_mem _ _ _ _ _ _ _ _ _ _ _ _ _ _ hb

theorem forward_insert_mem (data : Bytes) (cache : CacheMap) (e : Bytes × Bytes × Nat)
    (he : e ∈ (forward_to_doh domainOf parse send cfg now data cache).inserts) :
    e.1 = data.drop 2 ∧ 2 < e.2.1.length ∧
      e.2.2 = computeTtl parse cfg.cacheTtlDefault e.2.1 := by
  unfold forward_to_doh at he
  by_cases h12 : data.length < 12
  · rw [if_pos h12] at he
    simp at he
  · rw [if_neg h12] at he
    by_cases hsc : shouldCacheFor cfg.excludeDomain (domainOf data) = true
    · simp only [hsc, if_true] at he
      cases hget : cacheGet cache (data.drop 2) with
      | none =>
        simp only [hget] at he
        obtain ⟨h1, h2, h3, _⟩ := attemptLoop_insert_mem _ _ _ _ _ _ _ _ _ _ _ _ _ _ he
        exact ⟨h1, h2, h3⟩
      | some v =>
        obtain ⟨cachedResp, expiry⟩ := v
        simp only [hget] at he
        by_cases hexp : now < expiry
        · rw [if_pos hexp] at he
          by_cases hshort : cachedResp.length < 2
          · rw [if_pos hshort] at he
            simp at he
          · rw [if_neg hshort] at he
            simp at he
        · rw [if_neg hexp] at he
          obtain ⟨h1, h2, h3, _⟩ := attemptLoop_insert_mem _ _ _ _ _ _ _ _ _ _ _ _ _ _ he
          exact ⟨h1, h2, h3⟩
    · simp only [Bool.not_eq_true] at hsc
      simp only [hsc, Bool.false_eq_true, if_false] at he
      obtain ⟨h1, h2, h3, _⟩ := attemptLoop_insert_mem _ _ _ _ _ _ _ _ _ _ _ _ _ _ he
      exact ⟨h1, h2, h3⟩

theorem forward_probes_sc_true (data : Bytes) (cache : CacheMap)
    (hlen : 12 ≤ data.length)
    (hsc : shouldCacheFor cfg.excludeDomain (domainOf data) = true) :
    (forward_to_doh domainOf parse send cfg now data cache).probes =
      [data.drop 2] := by
  unfold forward_to_doh
  rw [if_neg (by omega)]
  simp only [hsc, if_true]
  cases hget : cacheGet cache (data.drop 2) with
  | none => rfl
  | some v =>
    obtain ⟨cachedResp, expiry⟩ := v
    by_cases hexp : now < expiry
    · by_cases hshort : cachedResp.length < 2
      · simp [hexp, hshort]
      · simp [hexp, hshort]
    · simp [hexp]

end ForwardLemmas

/-- Claim C1, as stated, is false on the code: a successful upstream
dispatch whose 2xx body is shorter than 2 bytes is returned without ID
restoration (the write-back at lib.rs:797 is guarded by
`final_resp.len() >= 2`), so the first two bytes of the response need not
equal those of the request.  Concrete input: request
AB CD 01 20 00×8 (length 12) with an empty cache and an upstream that
answers 200 with the single byte 0x42. -/
theorem c1_counterexample :
    ∃ S, (forward_to_doh (fun _ => "example.com") (fun _ => none)
        (fun _ => .ok 200 (.ok [66])) ⟨300, none⟩ 0
        [171, 205, 1, 32, 0, 0, 0, 0, 0, 0, 0, 0] []).result = .ok S ∧
      ¬ S.take 2 = ([171, 205, 1, 32, 0, 0, 0, 0, 0, 0, 0, 0] : Bytes).take 2 :=
  ⟨[66], by decide, by decide⟩

/-- Claim C1 (amended): for every request R with len(R) ≥ 12 for which
forward_to_doh produces a response S (cache hit or successful upstream
dispatch), if S has at least 2 bytes then the first two bytes of S equal
the first two bytes of R.  The amendment adds the premise len(S) ≥ 2,
forced by the counterexample: upstream bodies shorter than 2 bytes are
returned unmodified. -/
theorem c1_response_id_matches_request (domainOf : Bytes → String)
    (parse : Bytes → Option (List Nat)) (send : Nat → SendResult)
    (cfg : FwdConfig) (now : Nat) (data : Bytes) (cache : CacheMap) (S : Bytes)
    (hlen : 12 ≤ data.length)
    (hres : (forward_to_doh domainOf parse send cfg now data cache).result = .ok S)
    (hS : 2 ≤ S.length) :
    S.take 2 = data.take 2 := by
  rw [take_two_getD data (by omega)]
  unfold forward_to_doh at hres
  rw [if_neg (by omega)] at hres
  by_cases hsc : shouldCacheFor cfg.excludeDomain (domainOf data) = true
  · simp only [hsc, if_true] at hres
    cases hget : cacheGet cache (data.drop 2) with
    | none =>
      simp only [hget] at hres
      exact attemptLoop_ok_take_two _ _ _ _ _ _ _ _ _ _ _ _ _ _ hres hS
    | some v =>
      obtain ⟨cachedResp, expiry⟩ := v
      simp only [hget] at hres
      by_cases hexp : now < expiry
      · rw [if_pos hexp] at hres
        by_cases hshort : cachedResp.length < 2
        · rw [if_pos hshort] at hres
          simp at hres
        · rw [if_neg hshort] at hres
          simp only [Except.ok.injEq] at hres
          subst hres
          exact setId_take_two cachedResp _ _ (by omega)
      · rw [if_neg hexp] at hres
        exact attemptLoop_ok_take_two _ _ _ _ _ _ _ _ _ _ _ _ _ _ hres hS
  · simp only [Bool.not_eq_true] at hsc
    simp only [hsc, Bool.false_eq_true, if_false] at hres
    exact attemptLoop_ok_take_two _ _ _ _ _ _ _ _ _ _ _ _ _ _ hres hS

/-- Witness for C1 (amended) at a concrete input: a 12-byte request with
ID AB CD, empty cache, upstream answering 200 with a 12-byte body whose
ID bytes are zero; the delivered response carries AB CD. -/
theorem c1_response_id_matches_request_witness :
    (12 ≤ ([171, 205, 1, 32, 0, 0, 0, 0, 0, 0, 0, 0] : Bytes).length) ∧
    (forward_to_doh (fun _ => "example.com") (fun _ => none)
      (fun _ => .ok 200 (.ok [0, 0, 129, 128, 0, 0, 0, 0, 0, 0, 0, 0]))
      ⟨300, none⟩ 0 [171, 205, 1, 32, 0, 0, 0, 0, 0, 0, 0, 0] []).result =
      .ok [171, 205, 129, 128, 0, 0, 0, 0, 0, 0, 0, 0] ∧
    ([171, 205, 129, 128, 0, 0, 0, 0, 0, 0, 0, 0] : Bytes).take 2 =
      ([171, 205, 1, 32, 0, 0, 0, 0, 0, 0, 0, 0] : Bytes).take 2 :=
  ⟨by decide, by decide,
    c1_response_id_matches_request (fun _ => "example.com") (fun _ => none)
      (fun _ => .ok 200 (.ok [0, 0, 129, 128, 0, 0, 0, 0, 0, 0, 0, 0]))
      ⟨300, none⟩ 0 [171, 205, 1, 32, 0, 0, 0, 0, 0, 0, 0, 0] []
      [171, 205, 129, 128, 0, 0, 0, 0, 0, 0, 0, 0]
      (by decide) (by decide) (by decide)⟩

/-- Claim C2: for every request R with len(R) ≥ 12 that misses the cache,
every body B dispatched upstream by forward_to_doh equals R with its
first two bytes set to zero: B[0] = 0, B[1] = 0 and B[2..] = R[2..]
(lib.rs:749-752, 762-768). -/
theorem c2_dispatch_body_zeroed (domainOf : Bytes → String)
    (parse : Bytes → Option (List Nat)) (send : Nat → SendResult)
    (cfg : FwdConfig) (now : Nat) (data : Bytes) (cache : CacheMap) (b : Bytes)
    (hlen : 12 ≤ data.length)
    (hmiss : cacheGet cache (data.drop 2) = none)
    (hb : b ∈ (forward_to_doh domainOf parse send cfg now data cache).dispatches) :
    b.getD 0 0 = 0 ∧ b.getD 1 0 = 0 ∧ b.drop 2 = data.drop 2 := by
  have hbody := forward_dispatch_mem domainOf parse send cfg now data cache b hb
  subst hbody
  cases data with
  | nil => simp at hlen
  | cons a rest =>
    cases rest with
    | nil => simp at hlen
    | cons a2 t => simp [setId_cons_cons]

/-- Witness for C2 at a concrete input: the dispatched body of a 12-byte
request with ID AB CD starts with two zero bytes and keeps the tail. -/
theorem c2_dispatch_body_zeroed_witness :
    ([0, 0, 1, 32, 0, 0, 0, 0, 0, 0, 0, 0] : Bytes) ∈
      (forward_to_doh (fun _ => "example.com") (fun _ => none)
        (fun _ => .ok 200 (.ok [0, 0, 129, 128, 0, 0, 0, 0, 0, 0, 0, 0]))
        ⟨300, none⟩ 0 [171, 205, 1, 32, 0, 0, 0, 0, 0, 0, 0, 0] []).dispatches ∧
    (([0, 0, 1, 32, 0, 0, 0, 0, 0, 0, 0, 0] : Bytes).getD 0 0 = 0 ∧
     ([0, 0, 1, 32, 0, 0, 0, 0, 0, 0, 0, 0] : Bytes).getD 1 0 = 0 ∧
     ([0, 0, 1, 32, 0, 0, 0, 0, 0, 0, 0, 0] : Bytes).drop 2 =
       ([171, 205, 1, 32, 0, 0, 0, 0, 0, 0, 0, 0] : Bytes).drop 2) :=
  ⟨by decide,
    c2_dispatch_body_zeroed (fun _ => "example.com") (fun _ => none)
      (fun _ => .ok 200 (.ok [0, 0, 129, 128, 0, 0, 0, 0, 0, 0, 0, 0]))
      ⟨300, none⟩ 0 [171, 205, 1, 32, 0, 0, 0, 0, 0, 0, 0, 0] []
      [0, 0, 1, 32, 0, 0, 0, 0, 0, 0, 0, 0]
      (by decide) (by decide) (by decide)⟩

/-- Claim C3: for every request R with len(R) ≥ 12 and should_cache true,
the key used to probe the cache before dispatch and the key of every
cache population after a successful upstream response equal R[2..]
exactly, bytewise (lib.rs:730-732, 783-792). -/
theorem c3_fingerprint_is_tail (domainOf : Bytes → String)
    (parse : Bytes → Option (List Nat)) (send : Nat → SendResult)
    (cfg : FwdConfig) (now : Nat) (data : Bytes) (cache : CacheMap)
    (hlen : 12 ≤ data.length)
    (hsc : shouldCacheFor cfg.excludeDomain (domainOf data) = true) :
    (forward_to_doh domainOf parse send cfg now data cache).probes =
      [data.drop 2] ∧
    ∀ e ∈ (forward_to_doh domainOf parse send cfg now data cache).inserts,
      e.1 = data.drop 2 := by
  refine ⟨forward_probes_sc_true domainOf parse send cfg now data cache hlen hsc, ?_⟩
  intro e he
  exact (forward_insert_mem domainOf parse send cfg now data cache e he).1

/-- Witness for C3 at a concrete input: one probe with key R[2..], and
the single insertion also keyed R[2..]. -/
theorem c3_fingerprint_is_tail_witness :
    shouldCacheFor none "example.com" = true ∧
    ((forward_to_doh (fun _ => "example.com") (fun _ => none)
        (fun _ => .ok 200 (.ok [0, 0, 129, 128, 0, 0, 0, 0, 0, 0, 0, 0]))
        ⟨300, none⟩ 0 [171, 205, 1, 32, 0, 0, 0, 0, 0, 0, 0, 0] []).probes =
      [([171, 205, 1, 32, 0, 0, 0, 0, 0, 0, 0, 0] : Bytes).drop 2] ∧
     ∀ e ∈ (forward_to_doh (fun _ => "example.com") (fun _ => none)
        (fun _ => .ok 200 (.ok [0, 0, 129, 128, 0, 0, 0, 0, 0, 0, 0, 0]))
        ⟨300, none⟩ 0 [171, 205, 1, 32, 0, 0, 0, 0, 0, 0, 0, 0] []).inserts,
      e.1 = ([171, 205, 1, 32, 0, 0, 0, 0, 0, 0, 0, 0] : Bytes).drop 2) :=
  ⟨by decide,
    c3_fingerprint_is_tail (fun _ => "example.com") (fun _ => none)
      (fun _ => .ok 200 (.ok [0, 0, 129, 128, 0, 0, 0, 0, 0, 0, 0, 0]))
      ⟨300, none⟩ 0 [171, 205, 1, 32, 0, 0, 0, 0, 0, 0, 0, 0] []
      (by decide) (by decide)⟩

/-- Claim C4, as stated, is false on the code: the clamp to [10, 3600]
sits inside the parse-success branch (lib.rs:786-790), so when the
upstream response does not parse as a DNS message the configured default
is stored unclamped.  Concrete input: default TTL 5, an upstream 200
response whose body is the 3 bytes 01 02 03 - long enough for the
bytes.len() > 2 insert guard, yet shorter than a 12-byte DNS header, so
Message.from_vec cannot parse it; the insertion stores TTL 5 < 10. -/
theorem c4_counterexample :
    ∃ e ∈ (forward_to_doh (fun _ => "example.com") (fun _ => none)
        (fun _ => .ok 200 (.ok [1, 2, 3]))
        ⟨5, none⟩ 0 [171, 205, 1, 32, 0, 0, 0, 0, 0, 0, 0, 0] []).inserts,
      ¬ (10 ≤ e.2.2 ∧ e.2.2 ≤ 3600) := by decide

/-- Claim C4 (amended): for every cache insertion performed by
forward_to_doh, when the upstream response parses as a DNS message the
stored TTL is the minimum answer-record TTL (default if no answers)
clamped to [10, 3600]; when parsing fails the stored TTL is the
configured default, UNCLAMPED.  The amendment drops the clamp in the
parse-failure case, forced by the counterexample. -/
theorem c4_ttl_clamped_only_when_parsed (domainOf : Bytes → String)
    (parse : Bytes → Option (List Nat)) (send : Nat → SendResult)
    (cfg : FwdConfig) (now : Nat) (data : Bytes) (cache : CacheMap)
    (e : Bytes × Bytes × Nat)
    (he : e ∈ (forward_to_doh domainOf parse send cfg now data cache).inserts) :
    (parse e.2.1 = none → e.2.2 = cfg.cacheTtlDefault) ∧
    (∀ ttls, parse e.2.1 = some ttls → 10 ≤ e.2.2 ∧ e.2.2 ≤ 3600) := by
  obtain ⟨-, -, httl⟩ := forward_insert_mem domainOf parse send cfg now data cache e he
  constructor
  · intro hp
    rw [httl]
    simp [computeTtl, hp]
  · intro ttls hp
    rw [httl]
    simp only [computeTtl, hp]
    exact clampTtl_bounds _

/-- Witness for C4 (amended) at a concrete input: the upstream body
00 00 81 80 followed by eight zero bytes is a valid header-only DNS
message (all counts 0), so it parses with an empty answer list; the
default 300 is then clamped, and the stored TTL 300 lies in [10, 3600]. -/
theorem c4_ttl_clamped_only_when_parsed_witness :
    (([1, 32, 0, 0, 0, 0, 0, 0, 0, 0],
        [0, 0, 129, 128, 0, 0, 0, 0, 0, 0, 0, 0], 300) ∈
      (forward_to_doh (fun _ => "example.com") (fun _ => some [])
        (fun _ => .ok 200 (.ok [0, 0, 129, 128, 0, 0, 0, 0, 0, 0, 0, 0]))
        ⟨300, none⟩ 0 [171, 205, 1, 32, 0, 0, 0, 0, 0, 0, 0, 0] []).inserts) ∧
    (10 ≤ (([1, 32, 0, 0, 0, 0, 0, 0, 0, 0],
        [0, 0, 129, 128, 0, 0, 0, 0, 0, 0, 0, 0], 300) :
          Bytes × Bytes × Nat).2.2 ∧
      (([1, 32, 0, 0, 0, 0, 0, 0, 0, 0],
        [0, 0, 129, 128, 0, 0, 0, 0, 0, 0, 0, 0], 300) :
          Bytes × Bytes × Nat).2.2 ≤ 3600) :=
  ⟨by decide,
    (c4_ttl_clamped_only_when_parsed (fun _ => "example.com") (fun _ => some [])
      (fun _ => .ok 200 (.ok [0, 0, 129, 128, 0, 0, 0, 0, 0, 0, 0, 0]))
      ⟨300, none⟩ 0 [171, 205, 1, 32, 0, 0, 0, 0, 0, 0, 0, 0] []
      ([1, 32, 0, 0, 0, 0, 0, 0, 0, 0],
        [0, 0, 129, 128, 0, 0, 0, 0, 0, 0, 0, 0], 300)
      (by decide)).2 [] rfl⟩

/-- Claim C5: for every request R with len(R) < 12, forward_to_doh
returns a MalformedRequest-kind error without dispatching upstream,
without touching the cache, and no response bytes are sent back to the
client: no send_to on UDP, and no write on TCP for a frame whose length
prefix is below 12 (lib.rs:717-719, 638-648). -/
theorem c5_short_request_rejected (domainOf : Bytes → String)
    (parse : Bytes → Option (List Nat)) (send : Nat → SendResult)
    (cfg : FwdConfig) (now : Nat) (data streamIn : Bytes) (cache : CacheMap)
    (hd : data.length < 12)
    (hs : 2 ≤ streamIn.length)
    (hlen : u16be (streamIn.getD 0 0) (streamIn.getD 1 0) < 12)
    (henough : 2 + u16be (streamIn.getD 0 0) (streamIn.getD 1 0) ≤ streamIn.length) :
    (forward_to_doh domainOf parse send cfg now data cache).result =
      .error .malformedRequest ∧
    (forward_to_doh domainOf parse send cfg now data cache).cache = cache ∧
    (forward_to_doh domainOf parse send cfg now data cache).probes = [] ∧
    (forward_to_doh domainOf parse send cfg now data cache).dispatches = [] ∧
    (forward_to_doh domainOf parse send cfg now data cache).inserts = [] ∧
    (handle_udp_query domainOf parse send cfg now data cache).sent = none ∧
    (handle_tcp_query domainOf parse send cfg now streamIn cache).written = [] := by
  have hf := forward_to_doh_malformed domainOf parse send cfg now data cache hd
  have hml : ((streamIn.drop 2).take
      (u16be (streamIn.getD 0 0) (streamIn.getD 1 0))).length < 12 := by
    simp only [List.length_take]
    omega
  refine ⟨by rw [hf], by rw [hf], by rw [hf], by rw [hf], by rw [hf], ?_, ?_⟩
  · unfold handle_udp_query
    rw [hf]
  · simp only [handle_tcp_query]
    rw [if_neg (by omega), if_neg (by omega),
      forward_to_doh_malformed domainOf parse send cfg now _ cache hml]

/-- Witness for C5 at concrete inputs: an empty UDP datagram and a TCP
frame announcing an 11-byte query. -/
theorem c5_short_request_rejected_witness :
    (([] : Bytes).length < 12 ∧
      2 ≤ ([0, 11, 0, 0, 0, 0, 0, 0, 0, 0, 0, 0, 0] : Bytes).length) ∧
    (forward_to_doh (fun _ => "unknown") (fun _ => none)
      (fun _ => .ok 200 (.ok [0, 0, 129, 128])) ⟨300, none⟩ 0 [] []).result =
      .error .malformedRequest ∧
    (handle_udp_query (fun _ => "unknown") (fun _ => none)
      (fun _ => .ok 200 (.ok [0, 0, 129, 128])) ⟨300, none⟩ 0 [] []).sent = none ∧
    (handle_tcp_query (fun _ => "unknown") (fun _ => none)
      (fun _ => .ok 200 (.ok [0, 0, 129, 128])) ⟨300, none⟩ 0
      [0, 11, 0, 0, 0, 0, 0, 0, 0, 0, 0, 0, 0] []).written = [] :=
  ⟨⟨by decide, by decide⟩,
    (c5_short_request_rejected (fun _ => "unknown") (fun _ => none)
      (fun _ => .ok 200 (.ok [0, 0, 129, 128])) ⟨300, none⟩ 0 []
      [0, 11, 0, 0, 0, 0, 0, 0, 0, 0, 0, 0, 0] []
      (by decide) (by decide) (by decide) (by decide)).1,
    (c5_short_request_rejected (fun _ => "unknown") (fun _ => none)
      (fun _ => .ok 200 (.ok [0, 0, 129, 128])) ⟨300, none⟩ 0 []
      [0, 11, 0, 0, 0, 0, 0, 0, 0, 0, 0, 0, 0] []
      (by decide) (by decide) (by decide) (by decide)).2.2.2.2.2.1,
    (c5_short_request_rejected (fun _ => "unknown") (fun _ => none)
      (fun _ => .ok 200 (.ok [0, 0, 129, 128])) ⟨300, none⟩ 0 []
      [0, 11, 0, 0, 0, 0, 0, 0, 0, 0, 0, 0, 0] []
      (by decide) (by decide) (by decide) (by decide)).2.2.2.2.2.2⟩

theorem handle_udp_query_error (domainOf : Bytes → String)
    (parse : Bytes → Option (List Nat)) (send : Nat → SendResult)
    (cfg : FwdConfig) (now : Nat) (data : Bytes) (cache : CacheMap)
    (err : DohError)
    (h : (forward_to_doh domainOf parse send cfg now data cache).result =
      .error err) :
    (handle_udp_query domainOf parse send cfg now data cache).sent = none ∧
    (handle_udp_query domainOf parse send cfg now data cache).errorsInc = 1 := by
  simp only [handle_udp_query]
  rw [h]
  exact ⟨rfl, rfl⟩

theorem filter_pos_range (n : Nat) :
    (List.range n).filter (fun a => decide (0 < a)) = (List.range n).drop 1 := by
  cases n with
  | zero => simp
  | succ n =>
    rw [List.range_succ_eq_map]
    rw [List.filter_cons]
    rw [if_neg (by simp)]
    rw [List.drop_succ_cons, List.drop_zero]
    apply List.filter_eq_self.mpr
    intro a ha
    simp only [List.mem_map] at ha
    obtain ⟨x, -, rfl⟩ := ha
    simp

theorem attemptLoop_sleeps_from_zero (send : Nat → SendResult) (body : Bytes)
    (sc : Bool) (key : Bytes) (parse : Bytes → Option (List Nat))
    (dflt now id0 id1 : Nat) (fuel : Nat) (lastErr : Option String)
    (cache : CacheMap) :
    (attemptLoop send body sc key parse dflt now id0 id1 fuel 0 lastErr cache).sleeps =
      ((List.range (attemptLoop send body sc key parse dflt now id0 id1 fuel 0
        lastErr cache).dispatches.length).drop 1).map (fun a => 100 * a) := by
  rw [attemptLoop_sleeps_shape]
  rw [← List.range_eq_range']
  rw [filter_pos_range]

/-- Claim C6: the upstream dispatch loop of forward_to_doh makes at most
3 attempts; attempt k (0-indexed) sleeps 100*k ms before sending, with
no sleep before attempt 0; a non-2xx status or transport error on
attempt k < 2 leads to attempt k+1; the first 2xx response whose body is
read ends the loop and that body (with the ID restored when it has at
least 2 bytes) is the response; if all 3 attempts fail, the last error
is surfaced and the errors counter is incremented exactly once for the
query (lib.rs:757-808, 644-648). -/
theorem c6_retry_loop (domainOf : Bytes → String)
    (parse : Bytes → Option (List Nat)) (send : Nat → SendResult)
    (cfg : FwdConfig) (now : Nat) (data : Bytes) (cache : CacheMap)
    (hlen : 12 ≤ data.length)
    (hmiss : cacheGet cache (data.drop 2) = none) :
    (forward_to_doh domainOf parse send cfg now data cache).dispatches.length ≤ 3 ∧
    (forward_to_doh domainOf parse send cfg now data cache).sleeps =
      ((List.range (forward_to_doh domainOf parse send cfg now data
        cache).dispatches.length).drop 1).map (fun k => 100 * k) ∧
    (∀ j, j < 3 → (∀ k, k < j → isFailAttempt (send k) = true) →
      j + 1 ≤ (forward_to_doh domainOf parse send cfg now data
        cache).dispatches.length) ∧
    (∀ j code body, j < 3 → (∀ k, k < j → isFailAttempt (send k) = true) →
      send j = .ok code (.ok body) → is_success code = true →
      (forward_to_doh domainOf parse send cfg now data cache).dispatches.length =
        j + 1 ∧
      (forward_to_doh domainOf parse send cfg now data cache).result =
        .ok (if 2 ≤ body.length then
          setId body (data.getD 0 0) (data.getD 1 0) else body)) ∧
    ((∀ k, k < 3 → isFailAttempt (send k) = true) →
      (forward_to_doh domainOf parse send cfg now data cache).result =
        .error (.upstreamFailed (sendFailMsg (send 2))) ∧
      (handle_udp_query domainOf parse send cfg now data cache).errorsInc = 1) := by
  have hfwd := forward_to_doh_miss domainOf parse send cfg now data cache hlen hmiss
  refine ⟨?_, ?_, ?_, ?_, ?_⟩
  · rw [hfwd]
    exact attemptLoop_dispatch_le _ _ _ _ _ _ _ _ _ 3 0 none cache
  · rw [hfwd]
    exact attemptLoop_sleeps_from_zero _ _ _ _ _ _ _ _ _ 3 none cache
  · intro j hj hfail
    rw [hfwd]
    show j + 1 ≤ (attemptLoop send (setId data 0 0)
      (shouldCacheFor cfg.excludeDomain (domainOf data)) (data.drop 2) parse
      cfg.cacheTtlDefault now (data.getD 0 0) (data.getD 1 0) 3 0 none
      cache).dispatches.length
    interval_cases j
    · exact attemptLoop_dispatch_pos _ _ _ _ _ _ _ _ _ 2 0 none cache
    · rw [attemptLoop_fail_step _ _ _ _ _ _ _ _ _ 2 0 none cache
        (hfail 0 (by omega))]
      have hpos : 1 ≤ (attemptLoop send (setId data 0 0)
          (shouldCacheFor cfg.excludeDomain (domainOf data)) (data.drop 2) parse
          cfg.cacheTtlDefault now (data.getD 0 0) (data.getD 1 0) 2 1
          (some (sendFailMsg (send 0))) cache).dispatches.length :=
        attemptLoop_dispatch_pos _ _ _ _ _ _ _ _ _ 1 1 _ cache
      exact Nat.succ_le_succ hpos
    · rw [attemptLoop_fail_step _ _ _ _ _ _ _ _ _ 2 0 none cache
        (hfail 0 (by omega)),
        attemptLoop_fail_step _ _ _ _ _ _ _ _ _ 1 1 _ cache
        (hfail 1 (by omega))]
      have hpos : 1 ≤ (attemptLoop send (setId data 0 0)
          (shouldCacheFor cfg.excludeDomain (domainOf data)) (data.drop 2) parse
          cfg.cacheTtlDefault now (data.getD 0 0) (data.getD 1 0) 1 2
          (some (sendFailMsg (send 1))) cache).dispatches.length :=
        attemptLoop_dispatch_pos _ _ _ _ _ _ _ _ _ 0 2 _ cache
      exact Nat.succ_le_succ (Nat.succ_le_succ hpos)
  · intro j code body hj hfail hsend hcode
    rw [hfwd]
    show (attemptLoop send (setId data 0 0)
        (shouldCacheFor cfg.excludeDomain (domainOf data)) (data.drop 2) parse
        cfg.cacheTtlDefault now (data.getD 0 0) (data.getD 1 0) 3 0 none
        cache).dispatches.length = j + 1 ∧
      (attemptLoop send (setId data 0 0)
        (shouldCacheFor cfg.excludeDomain (domainOf data)) (data.drop 2) parse
        cfg.cacheTtlDefault now (data.getD 0 0) (data.getD 1 0) 3 0 none
        cache).result =
        .ok (if 2 ≤ body.length then
          setId body (data.getD 0 0) (data.getD 1 0) else body)
    interval_cases j
    · rw [attemptLoop_success_step _ _ _ _ _ _ _ _ _ 2 0 none cache code body
        hsend hcode]
      exact ⟨rfl, rfl⟩
    · rw [attemptLoop_fail_step _ _ _ _ _ _ _ _ _ 2 0 none cache
        (hfail 0 (by omega)),
        attemptLoop_success_step _ _ _ _ _ _ _ _ _ 1 1 _ cache code body
        hsend hcode]
      exact ⟨rfl, rfl⟩
    · rw [attemptLoop_fail_step _ _ _ _ _ _ _ _ _ 2 0 none cache
        (hfail 0 (by omega)),
        attemptLoop_fail_step _ _ _ _ _ _ _ _ _ 1 1 _ cache
        (hfail 1 (by omega)),
        attemptLoop_success_step _ _ _ _ _ _ _ _ _ 0 2 _ cache code body
        hsend hcode]
      exact ⟨rfl, rfl⟩
  · intro hall
    have hres : (attemptLoop send (setId data 0 0)
        (shouldCacheFor cfg.excludeDomain (domainOf data)) (data.drop 2) parse
        cfg.cacheTtlDefault now (data.getD 0 0) (data.getD 1 0) 3 0 none
        cache).result = .error (.upstreamFailed (sendFailMsg (send 2))) := by
      rw [attemptLoop_fail_step _ _ _ _ _ _ _ _ _ 2 0 none cache
        (hall 0 (by omega)),
        attemptLoop_fail_step _ _ _ _ _ _ _ _ _ 1 1 _ cache
        (hall 1 (by omega)),
        attemptLoop_fail_step _ _ _ _ _ _ _ _ _ 0 2 _ cache
        (hall 2 (by omega)),
        attemptLoop_zero]
      simp
    have hforward : (forward_to_doh domainOf parse send cfg now data cache).result =
        .error (.upstreamFailed (sendFailMsg (send 2))) := by
      rw [hfwd]
      exact hres
    exact ⟨hforward,
      (handle_udp_query_error domainOf parse send cfg now data cache _ hforward).2⟩

/-- Witness for C6 at a concrete input: the upstream fails twice with a
transport error and answers 200 on the third attempt; the loop makes 3
dispatches and returns the third body with the ID restored. -/
theorem c6_retry_loop_witness :
    (12 ≤ ([171, 205, 1, 32, 0, 0, 0, 0, 0, 0, 0, 0] : Bytes).length ∧
      cacheGet [] (([171, 205, 1, 32, 0, 0, 0, 0, 0, 0, 0, 0] : Bytes).drop 2) =
        none) ∧
    (forward_to_doh (fun _ => "example.com") (fun _ => none)
      (fun k => if k < 2 then .errS "connection closed"
        else .ok 200 (.ok [0, 0, 129, 128, 0, 0, 0, 0, 0, 0, 0, 0]))
      ⟨300, none⟩ 0 [171, 205, 1, 32, 0, 0, 0, 0, 0, 0, 0, 0]
      []).dispatches.length = 2 + 1 ∧
    (forward_to_doh (fun _ => "example.com") (fun _ => none)
      (fun k => if k < 2 then .errS "connection closed"
        else .ok 200 (.ok [0, 0, 129, 128, 0, 0, 0, 0, 0, 0, 0, 0]))
      ⟨300, none⟩ 0 [171, 205, 1, 32, 0, 0, 0, 0, 0, 0, 0, 0] []).result =
      .ok (if 2 ≤ ([0, 0, 129, 128, 0, 0, 0, 0, 0, 0, 0, 0] : Bytes).length then
        setId [0, 0, 129, 128, 0, 0, 0, 0, 0, 0, 0, 0]
          (([171, 205, 1, 32, 0, 0, 0, 0, 0, 0, 0, 0] : Bytes).getD 0 0)
          (([171, 205, 1, 32, 0, 0, 0, 0, 0, 0, 0, 0] : Bytes).getD 1 0)
        else [0, 0, 129, 128, 0, 0, 0, 0, 0, 0, 0, 0]) :=
  ⟨⟨by decide, by decide⟩,
    ((c6_retry_loop (fun _ => "example.com") (fun _ => none)
      (fun k => if k < 2 then .errS "connection closed"
        else .ok 200 (.ok [0, 0, 129, 128, 0, 0, 0, 0, 0, 0, 0, 0]))
      ⟨300, none⟩ 0 [171, 205, 1, 32, 0, 0, 0, 0, 0, 0, 0, 0] []
      (by decide) (by decide)).2.2.2.1 2 200
      [0, 0, 129, 128, 0, 0, 0, 0, 0, 0, 0, 0]
      (by omega) (by decide) rfl rfl).1,
    ((c6_retry_loop (fun _ => "example.com") (fun _ => none)
      (fun k => if k < 2 then .errS "connection closed"
        else .ok 200 (.ok [0, 0, 129, 128, 0, 0, 0, 0, 0, 0, 0, 0]))
      ⟨300, none⟩ 0 [171, 205, 1, 32, 0, 0, 0, 0, 0, 0, 0, 0] []
      (by decide) (by decide)).2.2.2.1 2 200
      [0, 0, 129, 128, 0, 0, 0, 0, 0, 0, 0, 0]
      (by omega) (by decide) rfl rfl).2⟩

/-- Claim C7, as stated, is false on the code: a TCP frame with length
prefix 0 makes the proxy read a zero-byte query and forward it, but the
pipeline rejects it as MalformedRequest (len < 12) and the handler
writes NOTHING back; no length-prefixed response is produced even though
the upstream oracle would answer.  Concrete input: stream 00 00 with an
empty cache and a healthy upstream. -/
theorem c7_counterexample :
    (handle_tcp_query (fun _ => "unknown") (fun _ => none)
      (fun _ => .ok 200 (.ok [0, 0, 129, 128, 0, 0, 0, 0, 0, 0, 0, 0]))
      ⟨300, none⟩ 0 [0, 0] []).written = [] ∧
    (handle_tcp_query (fun _ => "unknown") (fun _ => none)
      (fun _ => .ok 200 (.ok [0, 0, 129, 128, 0, 0, 0, 0, 0, 0, 0, 0]))
      ⟨300, none⟩ 0 [0, 0] []).errorsInc = 1 := by decide

/-- Claim C7 (amended): for a TCP connection whose frame carries length
prefix 0, the proxy reads zero bytes of query and forwards the empty
query through the pipeline, which rejects it as MalformedRequest; no
response is written back to the client, the errors counter is
incremented once, and the cache is untouched.  The amendment replaces
the final clause (a length-prefixed response is written) with the
no-response behaviour forced by the counterexample. -/
theorem c7_zero_length_frame (domainOf : Bytes → String)
    (parse : Bytes → Option (List Nat)) (send : Nat → SendResult)
    (cfg : FwdConfig) (now : Nat) (streamIn : Bytes) (cache : CacheMap)
    (hs : 2 ≤ streamIn.length)
    (h0 : streamIn.getD 0 0 = 0) (h1 : streamIn.getD 1 0 = 0) :
    (handle_tcp_query domainOf parse send cfg now streamIn cache).written = [] ∧
    (handle_tcp_query domainOf parse send cfg now streamIn cache).errorsInc = 1 ∧
    (handle_tcp_query domainOf parse send cfg now streamIn cache).cache = cache ∧
    (forward_to_doh domainOf parse send cfg now [] cache).result =
      .error .malformedRequest := by
  have hlen0 : u16be (streamIn.getD 0 0) (streamIn.getD 1 0) = 0 := by
    rw [h0, h1]
    rfl
  have hf := forward_to_doh_malformed domainOf parse send cfg now
    ([] : Bytes) cache (by simp)
  refine ⟨?_, ?_, ?_, by rw [hf]⟩ <;>
  · simp only [handle_tcp_query, hlen0]
    rw [if_neg (by omega : ¬ streamIn.length < 2),
      if_neg (by omega : ¬ streamIn.length < 2 + 0), List.take_zero, hf]

/-- Witness for C7 (amended) at the concrete stream 00 00. -/
theorem c7_zero_length_frame_witness :
    (2 ≤ ([0, 0] : Bytes).length ∧ ([0, 0] : Bytes).getD 0 0 = 0 ∧
      ([0, 0] : Bytes).getD 1 0 = 0) ∧
    ((handle_tcp_query (fun _ => "unknown") (fun _ => none)
        (fun _ => .errS "unreachable") ⟨300, none⟩ 0 [0, 0] []).written = [] ∧
      (handle_tcp_query (fun _ => "unknown") (fun _ => none)
        (fun _ => .errS "unreachable") ⟨300, none⟩ 0 [0, 0] []).errorsInc = 1 ∧
      (handle_tcp_query (fun _ => "unknown") (fun _ => none)
        (fun _ => .errS "unreachable") ⟨300, none⟩ 0 [0, 0] []).cache = [] ∧
      (forward_to_doh (fun _ => "unknown") (fun _ => none)
        (fun _ => .errS "unreachable") ⟨300, none⟩ 0 [] []).result =
        .error .malformedRequest) :=
  ⟨⟨by decide, by decide, by decide⟩,
    c7_zero_length_frame (fun _ => "unknown") (fun _ => none)
      (fun _ => .errS "unreachable") ⟨300, none⟩ 0 [0, 0] []
      (by decide) (by decide) (by decide)⟩

theorem forward_to_doh_sc_false (domainOf : Bytes → String)
    (parse : Bytes → Option (List Nat)) (send : Nat → SendResult)
    (cfg : FwdConfig) (now : Nat) (data : Bytes) (cache : CacheMap)
    (hlen : 12 ≤ data.length)
    (hsc : shouldCacheFor cfg.excludeDomain (domainOf data) = false) :
    forward_to_doh domainOf parse send cfg now data cache =
      { result := (attemptLoop send (setId data 0 0)
          (shouldCacheFor cfg.excludeDomain (domainOf data)) (data.drop 2)
          parse cfg.cacheTtlDefault now (data.getD 0 0) (data.getD 1 0) 3 0 none
          cache).result
        cache := (attemptLoop send (setId data 0 0)
          (shouldCacheFor cfg.excludeDomain (domainOf data)) (data.drop 2)
          parse cfg.cacheTtlDefault now (data.getD 0 0) (data.getD 1 0) 3 0 none
          cache).cache
        probes := []
        dispatches := (attemptLoop send (setId data 0 0)
          (shouldCacheFor cfg.excludeDomain (domainOf data)) (data.drop 2)
          parse cfg.cacheTtlDefault now (data.getD 0 0) (data.getD 1 0) 3 0 none
          cache).dispatches
        sleeps := (attemptLoop send (setId data 0 0)
          (shouldCacheFor cfg.excludeDomain (domainOf data)) (data.drop 2)
          parse cfg.cacheTtlDefault now (data.getD 0 0) (data.getD 1 0) 3 0 none
          cache).sleeps
        inserts := (attemptLoop send (setId data 0 0)
          (shouldCacheFor cfg.excludeDomain (domainOf data)) (data.drop 2)
          parse cfg.cacheTtlDefault now (data.getD 0 0) (data.getD 1 0) 3 0 none
          cache).inserts } := by
  unfold forward_to_doh
  rw [if_neg (by omega)]
  simp only [hsc, Bool.false_eq_true, if_false]

theorem forward_to_doh_expired (domainOf : Bytes → String)
    (parse : Bytes → Option (List Nat)) (send : Nat → SendResult)
    (cfg : FwdConfig) (now : Nat) (data : Bytes) (cache : CacheMap)
    (cachedResp : Bytes) (expiry : Nat)
    (hlen : 12 ≤ data.length)
    (hsc : shouldCacheFor cfg.excludeDomain (domainOf data) = true)
    (hget : cacheGet cache (data.drop 2) = some (cachedResp, expiry))
    (hexp : ¬ now < expiry) :
    forward_to_doh domainOf parse send cfg now data cache =
      { result := (attemptLoop send (setId data 0 0)
          (shouldCacheFor cfg.excludeDomain (domainOf data)) (data.drop 2)
          parse cfg.cacheTtlDefault now (data.getD 0 0) (data.getD 1 0) 3 0 none
          (cacheRemove cache (data.drop 2))).result
        cache := (attemptLoop send (setId data 0 0)
          (shouldCacheFor cfg.excludeDomain (domainOf data)) (data.drop 2)
          parse cfg.cacheTtlDefault now (data.getD 0 0) (data.getD 1 0) 3 0 none
          (cacheRemove cache (data.drop 2))).cache
        probes := [data.drop 2]
        dispatches := (attemptLoop send (setId data 0 0)
          (shouldCacheFor cfg.excludeDomain (domainOf data)) (data.drop 2)
          parse cfg.cacheTtlDefault now (data.getD 0 0) (data.getD 1 0) 3 0 none
          (cacheRemove cache (data.drop 2))).dispatches
        sleeps := (attemptLoop send (setId data 0 0)
          (shouldCacheFor cfg.excludeDomain (domainOf data)) (data.drop 2)
          parse cfg.cacheTtlDefault now (data.getD 0 0) (data.getD 1 0) 3 0 none
          (cacheRemove cache (data.drop 2))).sleeps
        inserts := (attemptLoop send (setId data 0 0)
          (shouldCacheFor cfg.excludeDomain (domainOf data)) (data.drop 2)
          parse cfg.cacheTtlDefault now (data.getD 0 0) (data.getD 1 0) 3 0 none
          (cacheRemove cache (data.drop 2))).inserts } := by
  unfold forward_to_doh
  rw [if_neg (by omega)]
  simp only [hsc, if_true, hget, if_neg hexp]

/-- Claim C8: for every request whose extracted queried name equals the
configured exclude-domain under case-insensitive comparison, the cache
is neither consulted before dispatch nor populated afterwards and the
query is dispatched upstream on every call; for every other name the
normal cache lookup is performed and, on a fresh miss answered by a 2xx
body longer than 2 bytes, the normal insertion is performed
(lib.rs:722-747, 783-792). -/
theorem c8_exclude_domain_bypass (domainOf : Bytes → String)
    (parse : Bytes → Option (List Nat)) (send : Nat → SendResult)
    (cfg : FwdConfig) (now : Nat) (data : Bytes) (cache : CacheMap)
    (excl : String) (hlen : 12 ≤ data.length) :
    (cfg.excludeDomain = some excl →
      eqIgnoreAsciiCase (domainOf data) excl = true →
      (forward_to_doh domainOf parse send cfg now data cache).probes = [] ∧
      (forward_to_doh domainOf parse send cfg now data cache).inserts = [] ∧
      (forward_to_doh domainOf parse send cfg now data cache).cache = cache ∧
      (forward_to_doh domainOf parse send cfg now data cache).dispatches ≠ []) ∧
    (shouldCacheFor cfg.excludeDomain (domainOf data) = true →
      (forward_to_doh domainOf parse send cfg now data cache).probes =
        [data.drop 2] ∧
      (cacheGet cache (data.drop 2) = none →
        ∀ code body, send 0 = .ok code (.ok body) → is_success code = true →
          2 < body.length →
          (forward_to_doh domainOf parse send cfg now data cache).inserts =
            [(data.drop 2, body, computeTtl parse cfg.cacheTtlDefault body)])) := by
  constructor
  · intro hexcl heq
    have hsc : shouldCacheFor cfg.excludeDomain (domainOf data) = false := by
      rw [hexcl]
      simp [shouldCacheFor, heq]
    rw [forward_to_doh_sc_false domainOf parse send cfg now data cache hlen hsc]
    refine ⟨rfl, ?_, ?_, ?_⟩
    · exact (attemptLoop_sc_false send (setId data 0 0) _ (data.drop 2) parse
        cfg.cacheTtlDefault now (data.getD 0 0) (data.getD 1 0) hsc 3 0 none cache).2
    · exact (attemptLoop_sc_false send (setId data 0 0) _ (data.drop 2) parse
        cfg.cacheTtlDefault now (data.getD 0 0) (data.getD 1 0) hsc 3 0 none cache).1
    · have hpos : 1 ≤ (attemptLoop send (setId data 0 0)
          (shouldCacheFor cfg.excludeDomain (domainOf data)) (data.drop 2) parse
          cfg.cacheTtlDefault now (data.getD 0 0) (data.getD 1 0) 3 0 none
          cache).dispatches.length :=
        attemptLoop_dispatch_pos _ _ _ _ _ _ _ _ _ 2 0 none cache
      intro hnil
      have hnil2 : (attemptLoop send (setId data 0 0)
          (shouldCacheFor cfg.excludeDomain (domainOf data)) (data.drop 2) parse
          cfg.cacheTtlDefault now (data.getD 0 0) (data.getD 1 0) 3 0 none
          cache).dispatches = [] := hnil
      rw [hnil2] at hpos
      simp at hpos
  · intro hsc
    refine ⟨forward_probes_sc_true domainOf parse send cfg now data cache hlen hsc, ?_⟩
    intro hmiss code body hsend hcode hblen
    rw [forward_to_doh_miss domainOf parse send cfg now data cache hlen hmiss]
    show (attemptLoop send (setId data 0 0)
      (shouldCacheFor cfg.excludeDomain (domainOf data)) (data.drop 2) parse
      cfg.cacheTtlDefault now (data.getD 0 0) (data.getD 1 0) 3 0 none
      cache).inserts = _
    rw [attemptLoop_success_step _ _ _ _ _ _ _ _ _ 2 0 none cache code body
      hsend hcode]
    show (if shouldCacheFor cfg.excludeDomain (domainOf data) &&
        decide (2 < body.length) then
      [(data.drop 2, body, computeTtl parse cfg.cacheTtlDefault body)]
      else []) = _
    rw [if_pos (by simp [hsc, hblen])]

/-- Witness for C8 at concrete inputs: exclude-domain metrics.internal
with an extracted name differing only in ASCII case bypasses the cache
entirely while still dispatching upstream. -/
theorem c8_exclude_domain_bypass_witness :
    ((⟨300, some "metrics.internal"⟩ : FwdConfig).excludeDomain =
        some "metrics.internal" ∧
      eqIgnoreAsciiCase "METRICS.internal" "metrics.internal" = true) ∧
    ((forward_to_doh (fun _ => "METRICS.internal") (fun _ => none)
        (fun _ => .ok 200 (.ok [0, 0, 129, 128, 0, 0, 0, 0, 0, 0, 0, 0]))
        ⟨300, some "metrics.internal"⟩ 0
        [171, 205, 1, 32, 0, 0, 0, 0, 0, 0, 0, 0] []).probes = [] ∧
      (forward_to_doh (fun _ => "METRICS.internal") (fun _ => none)
        (fun _ => .ok 200 (.ok [0, 0, 129, 128, 0, 0, 0, 0, 0, 0, 0, 0]))
        ⟨300, some "metrics.internal"⟩ 0
        [171, 205, 1, 32, 0, 0, 0, 0, 0, 0, 0, 0] []).inserts = [] ∧
      (forward_to_doh (fun _ => "METRICS.internal") (fun _ => none)
        (fun _ => .ok 200 (.ok [0, 0, 129, 128, 0, 0, 0, 0, 0, 0, 0, 0]))
        ⟨300, some "metrics.internal"⟩ 0
        [171, 205, 1, 32, 0, 0, 0, 0, 0, 0, 0, 0] []).cache = [] ∧
      (forward_to_doh (fun _ => "METRICS.internal") (fun _ => none)
        (fun _ => .ok 200 (.ok [0, 0, 129, 128, 0, 0, 0, 0, 0, 0, 0, 0]))
        ⟨300, some "metrics.internal"⟩ 0
        [171, 205, 1, 32, 0, 0, 0, 0, 0, 0, 0, 0] []).dispatches ≠ []) :=
  ⟨⟨rfl, by decide⟩,
    (c8_exclude_domain_bypass (fun _ => "METRICS.internal") (fun _ => none)
      (fun _ => .ok 200 (.ok [0, 0, 129, 128, 0, 0, 0, 0, 0, 0, 0, 0]))
      ⟨300, some "metrics.internal"⟩ 0
      [171, 205, 1, 32, 0, 0, 0, 0, 0, 0, 0, 0] [] "metrics.internal"
      (by decide)).1 rfl (by decide)⟩

/-- Claim C9: every entry inserted into the answer cache by
forward_to_doh has response bytes longer than 2 (the insertion at
lib.rs:783 is guarded by bytes.len() > 2), the pipeline preserves this
cache invariant, and therefore on a cache hit the unconditional
overwrite of indices 0 and 1 of the copied response (lib.rs:738-739) is
in bounds and never panics. -/
theorem c9_cache_hit_no_panic (domainOf : Bytes → String)
    (parse : Bytes → Option (List Nat)) (send : Nat → SendResult)
    (cfg : FwdConfig) (now : Nat) (data : Bytes) (cache : CacheMap)
    (hwf : cacheWf cache) :
    cacheWf (forward_to_doh domainOf parse send cfg now data cache).cache ∧
    (∀ e ∈ (forward_to_doh domainOf parse send cfg now data cache).inserts,
      2 < e.2.1.length) ∧
    (forward_to_doh domainOf parse send cfg now data cache).result ≠
      .error .panicIndexOutOfBounds := by
  refine ⟨?_, fun e he =>
    (forward_insert_mem domainOf parse send cfg now data cache e he).2.1, ?_⟩ <;>
  · by_cases h12 : data.length < 12
    · rw [forward_to_doh_malformed domainOf parse send cfg now data cache h12]
      first
        | exact hwf
        | simp
    · by_cases hsc : shouldCacheFor cfg.excludeDomain (domainOf data) = true
      · cases hget : cacheGet cache (data.drop 2) with
        | none =>
          rw [forward_to_doh_miss domainOf parse send cfg now data cache
            (by omega) hget]
          first
            | exact attemptLoop_cache_wf _ _ _ _ _ _ _ _ _ 3 0 none cache hwf
            | exact attemptLoop_no_panic _ _ _ _ _ _ _ _ _ 3 0 none cache
        | some v =>
          obtain ⟨cachedResp, expiry⟩ := v
          by_cases hexp : now < expiry
          · have hlong : 2 < cachedResp.length :=
              hwf (data.drop 2, cachedResp, expiry) (cacheGet_mem hget)
            rw [forward_to_doh_hit domainOf parse send cfg now data cache
              cachedResp expiry (by omega) hsc hget hexp (by omega)]
            first
              | exact hwf
              | simp
          · rw [forward_to_doh_expired domainOf parse send cfg now data cache
              cachedResp expiry (by omega) hsc hget hexp]
            first
              | exact attemptLoop_cache_wf _ _ _ _ _ _ _ _ _ 3 0 none
                  (cacheRemove cache (data.drop 2)) (cacheRemove_wf hwf)
              | exact attemptLoop_no_panic _ _ _ _ _ _ _ _ _ 3 0 none
                  (cacheRemove cache (data.drop 2))
      · simp only [Bool.not_eq_true] at hsc
        rw [forward_to_doh_sc_false domainOf parse send cfg now data cache
          (by omega) hsc]
        first
          | exact attemptLoop_cache_wf _ _ _ _ _ _ _ _ _ 3 0 none cache hwf
          | exact attemptLoop_no_panic _ _ _ _ _ _ _ _ _ 3 0 none cache

/-- Witness for C9 at a concrete input: a well-formed cache with one
3-byte entry; the hit path succeeds without the panic outcome and the
invariant is preserved. -/
theorem c9_cache_hit_no_panic_witness :
    cacheWf [([1, 32, 0, 0, 0, 0, 0, 0, 0, 0], [7, 7, 7], 100)] ∧
    (cacheWf (forward_to_doh (fun _ => "example.com") (fun _ => none)
        (fun _ => .errS "unreachable") ⟨300, none⟩ 0
        [171, 205, 1, 32, 0, 0, 0, 0, 0, 0, 0, 0]
        [([1, 32, 0, 0, 0, 0, 0, 0, 0, 0], [7, 7, 7], 100)]).cache ∧
      (∀ e ∈ (forward_to_doh (fun _ => "example.com") (fun _ => none)
        (fun _ => .errS "unreachable") ⟨300, none⟩ 0
        [171, 205, 1, 32, 0, 0, 0, 0, 0, 0, 0, 0]
        [([1, 32, 0, 0, 0, 0, 0, 0, 0, 0], [7, 7, 7], 100)]).inserts,
        2 < e.2.1.length) ∧
      (forward_to_doh (fun _ => "example.com") (fun _ => none)
        (fun _ => .errS "unreachable") ⟨300, none⟩ 0
        [171, 205, 1, 32, 0, 0, 0, 0, 0, 0, 0, 0]
        [([1, 32, 0, 0, 0, 0, 0, 0, 0, 0], [7, 7, 7], 100)]).result ≠
        .error .panicIndexOutOfBounds) :=
  ⟨by unfold cacheWf; decide,
    c9_cache_hit_no_panic (fun _ => "example.com") (fun _ => none)
      (fun _ => .errS "unreachable") ⟨300, none⟩ 0
      [171, 205, 1, 32, 0, 0, 0, 0, 0, 0, 0, 0]
      [([1, 32, 0, 0, 0, 0, 0, 0, 0, 0], [7, 7, 7], 100)]
      (by unfold cacheWf; decide)⟩

theorem bootstrapServers_go_none (parseIp : String → Option String)
    (parseSock : String → Option SockAddr) (s : String)
    (hentry : parseBootstrapEntry parseIp parseSock s = none) :
    ∀ l : List String, s ∈ l → bootstrapServers.go parseIp parseSock l = none := by
  intro l
  induction l with
  | nil =>
    intro h
    simp at h
  | cons a rest ih =>
    intro hl
    rcases List.mem_cons.mp hl with rfl | hl2
    · simp [bootstrapServers.go, hentry]
    · cases hpa : parseBootstrapEntry parseIp parseSock a with
      | none => simp [bootstrapServers.go, hpa]
      | some x => simp [bootstrapServers.go, hpa, ih hl2]

/-- Claim C10: if any comma-separated entry of the bootstrap_dns string
parses as neither a bare IP nor an IP:port socket address,
resolve_bootstrap panics via expect (modelled as the outer `none`)
instead of returning a BootstrapFailed-kind error, regardless of the
lookup outcome; and every entry that is a bare IP is mapped to port 53
(lib.rs:552-563). -/
theorem c10_bootstrap_parse_panics (parseIp : String → Option String)
    (parseSock : String → Option SockAddr)
    (lookupIp : List SockAddr → Except String (List String))
    (bootstrap_dns : String) :
    ((∃ s ∈ rustSplit ',' bootstrap_dns,
        parseIp (rustTrim s) = none ∧ parseSock (rustTrim s) = none) →
      resolve_bootstrap parseIp parseSock lookupIp bootstrap_dns = none) ∧
    (∀ s ∈ rustSplit ',' bootstrap_dns, ∀ ip, parseIp (rustTrim s) = some ip →
      parseBootstrapEntry parseIp parseSock s =
        some { ip := ip, port := 53 }) := by
  constructor
  · rintro ⟨s, hmem, h1, h2⟩
    have hentry : parseBootstrapEntry parseIp parseSock s = none := by
      simp [parseBootstrapEntry, h1, h2]
    have hservers : bootstrapServers parseIp parseSock bootstrap_dns = none := by
      unfold bootstrapServers
      exact bootstrapServers_go_none parseIp parseSock s hentry _ hmem
    simp [resolve_bootstrap, hservers]
  · intro s hmem ip hip
    simp [parseBootstrapEntry, hip]

/-- Witness for C10 at a concrete input: the list 9.9.9.9,garbage has an
entry no parser accepts, so the whole resolution is a panic, not an
error value; the bare-IP entry maps to port 53. -/
theorem c10_bootstrap_parse_panics_witness :
    (∃ s ∈ rustSplit ',' "9.9.9.9,garbage",
      (fun t => if t = "9.9.9.9" then some "9.9.9.9" else none) (rustTrim s) =
        (none : Option String) ∧
      (fun _ : String => (none : Option SockAddr)) (rustTrim s) = none) ∧
    resolve_bootstrap (fun t => if t = "9.9.9.9" then some "9.9.9.9" else none)
      (fun _ => none) (fun _ => .ok ["1.2.3.4"]) "9.9.9.9,garbage" = none ∧
    parseBootstrapEntry (fun t => if t = "9.9.9.9" then some "9.9.9.9" else none)
      (fun _ => none) "9.9.9.9" = some { ip := "9.9.9.9", port := 53 } :=
  ⟨⟨"garbage", by decide, by decide, rfl⟩,
    (c10_bootstrap_parse_panics
      (fun t => if t = "9.9.9.9" then some "9.9.9.9" else none)
      (fun _ => none) (fun _ => .ok ["1.2.3.4"]) "9.9.9.9,garbage").1
      ⟨"garbage", by decide, by decide, rfl⟩,
    (c10_bootstrap_parse_panics
      (fun t => if t = "9.9.9.9" then some "9.9.9.9" else none)
      (fun _ => none) (fun _ => .ok ["1.2.3.4"]) "9.9.9.9,garbage").2
      "9.9.9.9" (by decide) "9.9.9.9" (by decide)⟩

end SafeDNS
